import Mathlib

/-!
Verification development for the shared wire-protocol layer of a
multiplayer voxel game (the `shared/src/protocol.ts` and
`shared/src/types.ts` modules), embedded shallowly in Lean 4.

TypeScript `number` fields are modelled as `Int`; `Uint8Array`
buffers are modelled as `List Nat` whose well-formed elements are
below 256; `string` fields as `String`; `any` fields as a small
dynamic-value type `Dyn`.  Interface shapes (which properties an
interface declares) are additionally embedded as lists of property
names, so that claims about the presence or absence of a field can
be stated and decided.
-/

namespace StrixCraft

/-- The wire message type-tag catalogue: one constructor per member of
the `MessageType` string enum in `protocol.ts`, in declaration order. -/
inductive MessageType
  | authRequest
  | authResponse
  | worldListRequest
  | worldListResponse
  | worldCreateRequest
  | worldCreateResponse
  | worldJoinRequest
  | worldJoinResponse
  | worldLeaveRequest
  | worldDeleteRequest
  | playerJoin
  | playerLeave
  | playerUpdate
  | playerInventoryUpdate
  | chunkRequest
  | chunkData
  | blockUpdate
  | entitySpawn
  | entityUpdate
  | entityDespawn
  | craftingRequest
  | craftingResponse
  | inventoryAction
  | healthUpdate
  | experienceUpdate
  | chatMessage
  | commandRequest
  | commandResponse
  | ping
  | pong
  | error
  | serverStats
deriving DecidableEq, Repr

/-- The string value each `MessageType` enum member is declared with. -/
def MessageType.wire : MessageType → String
  | .authRequest => "auth_request"
  | .authResponse => "auth_response"
  | .worldListRequest => "world_list_request"
  | .worldListResponse => "world_list_response"
  | .worldCreateRequest => "world_create_request"
  | .worldCreateResponse => "world_create_response"
  | .worldJoinRequest => "world_join_request"
  | .worldJoinResponse => "world_join_response"
  | .worldLeaveRequest => "world_leave_request"
  | .worldDeleteRequest => "world_delete_request"
  | .playerJoin => "player_join"
  | .playerLeave => "player_leave"
  | .playerUpdate => "player_update"
  | .playerInventoryUpdate => "player_inventory_update"
  | .chunkRequest => "chunk_request"
  | .chunkData => "chunk_data"
  | .blockUpdate => "block_update"
  | .entitySpawn => "entity_spawn"
  | .entityUpdate => "entity_update"
  | .entityDespawn => "entity_despawn"
  | .craftingRequest => "crafting_request"
  | .craftingResponse => "crafting_response"
  | .inventoryAction => "inventory_action"
  | .healthUpdate => "health_update"
  | .experienceUpdate => "experience_update"
  | .chatMessage => "chat_message"
  | .commandRequest => "command_request"
  | .commandResponse => "command_response"
  | .ping => "ping"
  | .pong => "pong"
  | .error => "error"
  | .serverStats => "server_stats"

/-- All 32 members of the `MessageType` enum, in declaration order. -/
def allMessageTypes : List MessageType :=
  [.authRequest, .authResponse,
   .worldListRequest, .worldListResponse,
   .worldCreateRequest, .worldCreateResponse,
   .worldJoinRequest, .worldJoinResponse,
   .worldLeaveRequest, .worldDeleteRequest,
   .playerJoin, .playerLeave, .playerUpdate, .playerInventoryUpdate,
   .chunkRequest, .chunkData, .blockUpdate,
   .entitySpawn, .entityUpdate, .entityDespawn,
   .craftingRequest, .craftingResponse, .inventoryAction,
   .healthUpdate, .experienceUpdate,
   .chatMessage, .commandRequest, .commandResponse,
   .ping, .pong, .error, .serverStats]

/-- The `type` tag of each member of the `NetworkMessage` union in
`protocol.ts`, one entry per union member, in declaration order
(`AuthRequestMessage`, ..., `ErrorMessage`). -/
def networkMessageVariantTags : List MessageType :=
  [.authRequest, .authResponse,
   .worldListRequest, .worldListResponse,
   .worldCreateRequest, .worldCreateResponse,
   .worldJoinRequest, .worldJoinResponse,
   .playerJoin, .playerLeave, .playerUpdate,
   .chunkRequest, .chunkData, .blockUpdate,
   .chatMessage, .commandRequest, .commandResponse,
   .ping, .pong, .error]

/-- Catalogued type tags for which the `NetworkMessage` union of
`protocol.ts` declares no payload interface at all. -/
def missingVariantTags : List MessageType :=
  [.worldLeaveRequest, .worldDeleteRequest, .playerInventoryUpdate,
   .entitySpawn, .entityUpdate, .entityDespawn,
   .craftingRequest, .craftingResponse, .inventoryAction,
   .healthUpdate, .experienceUpdate, .serverStats]

/-- Property names of `BaseMessage` (`protocol.ts`), the envelope every
wire message interface extends: `type`, `id`, `timestamp`. -/
def baseMessageFields : List String := ["type", "id", "timestamp"]

/-- Property names of the `NetworkMessage` interface of `types.ts`
(the envelope shape declared there): `type`, `payload`, `timestamp`. -/
def typesNetworkMessageFields : List String := ["type", "payload", "timestamp"]

/-- Property names of the `Entity` interface in `types.ts`, in
declaration order. -/
def entityFields : List String :=
  ["id", "type", "position", "rotation", "velocity",
   "health", "maxHealth", "metadata"]

/-- Modelled from the spec: candidate property names under which an
"authority tick counter" field of the entity data model could be
declared; the spec's entity carries such a counter but names no
TypeScript property for it, so plausible spellings are enumerated. -/
def authorityTickFieldNames : List String :=
  ["tick", "authorityTick", "authority_tick", "lastTick",
   "lastUpdateTick", "lastAuthoritativeTick", "authTick"]

/-- Properties `PongMessage` itself re-declares (`protocol.ts` lines
173-176): the narrowed `type` literal and `timestamp`. -/
def pongOwnFields : List String := ["type", "timestamp"]

/-- The property set of the full `PongMessage` interface: extending
`BaseMessage` merges same-named properties, so the interface exposes
each property name once. -/
def pongMessageFields : List String :=
  (baseMessageFields ++ pongOwnFields).dedup

/-- The values of the `messageType` union type on `ChatMessageMessage`
(`protocol.ts` line 153). -/
def protocolChatMessageTypes : List String := ["chat", "system", "command"]

/-- The values of the `type` union type on `ChatMessage`
(`types.ts` line 117). -/
def typesChatMessageTypes : List String := ["chat", "system", "command"]

/-- A `chat_message` payload's `messageType` string is well-formed
exactly when it inhabits the declared union type. -/
def chatMessageTypeWF (s : String) : Prop := s ∈ protocolChatMessageTypes

/-- The `GameMode` string enum of `types.ts`. -/
inductive GameMode
  | survival
  | creative
deriving DecidableEq, Repr

/-- The declared string value of each `GameMode` member. -/
def GameMode.wire : GameMode → String
  | .survival => "survival"
  | .creative => "creative"

/-- The closed set of wire strings the `GameMode` enum reserves. -/
def gameModeWireValues : List String := ["survival", "creative"]

/-- A small dynamic value type standing in for TypeScript `any`. -/
inductive Dyn
  | null
  | bool (b : Bool)
  | num (n : Int)
  | str (s : String)
deriving DecidableEq, Repr

/-- `InventoryItem` of `types.ts`. -/
structure InventoryItem where
  id : Int
  count : Int
  metadata : Option (List (String × Dyn))
deriving DecidableEq, Repr

/-- `Player` of `types.ts`: note `gameMode` is typed by the closed
`GameMode` enum. -/
structure Player where
  id : String
  username : String
  position : Int × Int × Int
  rotation : Int × Int × Int
  health : Int
  maxHealth : Int
  hunger : Int
  maxHunger : Int
  experience : Int
  level : Int
  inventory : List InventoryItem
  selectedSlot : Int
  gameMode : GameMode
deriving DecidableEq, Repr

/-- `WorldSettings` of `types.ts`: `gameMode` is typed by the closed
`GameMode` enum, `difficulty` by a four-value union. -/
structure WorldSettings where
  name : String
  seed : Int
  gameMode : GameMode
  maxPlayers : Int
  allowPvP : Bool
  allowMobGriefing : Bool
  keepInventory : Bool
  naturalRegeneration : Bool
  difficulty : String
deriving DecidableEq, Repr

/-- `WorldCreateRequestMessage` of `protocol.ts`: its `gameMode`
property is declared as plain `string`, not as `GameMode`. -/
structure WorldCreateRequestMessage where
  type : MessageType
  id : String
  timestamp : Int
  name : String
  seed : Int
  gameMode : String
  settings : Dyn
deriving DecidableEq, Repr

/-- A `world_create_request` value is well-formed when its tag is the
literal the interface fixes; the interface places no further
constraint on `gameMode` beyond being a string. -/
def WorldCreateRequestMessage.wf (m : WorldCreateRequestMessage) : Prop :=
  m.type = MessageType.worldCreateRequest

/-- `Entity` of `types.ts`, embedded as a structure. -/
structure Entity where
  id : String
  type : String
  position : Int × Int × Int
  rotation : Int × Int × Int
  velocity : Int × Int × Int
  health : Int
  maxHealth : Int
  metadata : List (String × Dyn)
deriving DecidableEq, Repr

/-- `ChunkData` of `types.ts` (also the payload part of
`ChunkDataMessage` in `protocol.ts`): column coordinates plus three
`Uint8Array` buffers, modelled as lists of naturals. -/
structure ChunkData where
  x : Int
  z : Int
  blocks : List Nat
  metadata : List Nat
  light : List Nat
deriving DecidableEq, Repr

/-- A valid chunk payload: the three per-voxel arrays have one entry
per voxel of the same chunk volume, every entry fits the `Uint8Array`
element range (a byte, below 256), and the column coordinates fit a
signed 32-bit header field. -/
def ChunkData.wf (c : ChunkData) : Prop :=
  c.metadata.length = c.blocks.length ∧
  c.light.length = c.blocks.length ∧
  (∀ v ∈ c.blocks, v < 256) ∧
  (∀ v ∈ c.metadata, v < 256) ∧
  (∀ v ∈ c.light, v < 256) ∧
  -2 ^ 31 ≤ c.x ∧ c.x < 2 ^ 31 ∧ -2 ^ 31 ≤ c.z ∧ c.z < 2 ^ 31

instance (c : ChunkData) : Decidable c.wf := by
  unfold ChunkData.wf; infer_instance

/-! ## Codec

The repository declares the message shapes but ships no
encoder/decoder; the codec below is modelled from the spec (§4.1):
`encode(message) -> bytes`, `decode(bytes) -> message | DecodeError`;
chunk payload layout is header (coordinates, format version) followed
by the block-id array, the metadata array (one byte per voxel) and the
light array (one byte per voxel holding packed 4-bit sky / 4-bit block
light); a truncated or length-mismatched buffer decodes to
`MalformedPayload` and an unknown type tag to `UnknownMessageType`. -/

/-- Modelled from the spec: the codec's decode-failure taxonomy —
`MalformedPayload` for truncated / length-mismatched buffers,
`UnknownMessageType` for an unrecognised type tag. -/
inductive DecodeError
  | malformedPayload
  | unknownMessageType
deriving DecidableEq, Repr

/-- Modelled from the spec: the numeric code an `error` message
carries back for each decode failure. -/
def DecodeError.code : DecodeError → Nat
  | .malformedPayload => 1
  | .unknownMessageType => 2

/-- Modelled from the spec: the chunk payload header's format version
byte. -/
def chunkFormatVersion : Nat := 1

/-- Little-endian 4-byte encoding of a natural below `2 ^ 32`. -/
def le32 (n : Nat) : List Nat :=
  [n % 256, n / 256 % 256, n / 65536 % 256, n / 16777216 % 256]

/-- Read back a little-endian 4-byte group. -/
def de32 : List Nat → Nat
  | [a, b, c, d] => a + 256 * b + 65536 * c + 16777216 * d
  | _ => 0

/-- Modelled from the spec: header coordinates are signed 32-bit,
two's complement, little-endian. -/
def encInt32 (x : Int) : List Nat := le32 (x % (4294967296 : Int)).toNat

/-- Decode a signed 32-bit two's-complement little-endian group. -/
def decInt32 (b : List Nat) : Int :=
  let n := de32 b
  if n < 2147483648 then (n : Int) else (n : Int) - 4294967296

/-- Modelled from the spec: serialise a chunk payload as header
(x, z coordinates, format version) followed by the three per-voxel
byte arrays. -/
def encodeChunk (c : ChunkData) : List Nat :=
  encInt32 c.x ++ encInt32 c.z ++ [chunkFormatVersion] ++
    c.blocks ++ c.metadata ++ c.light

/-- A chunk payload buffer is length-consistent when it holds at least
the 9 header bytes and the body splits into three equal per-voxel
arrays. -/
def chunkLenOk (b : List Nat) : Bool :=
  9 ≤ b.length && (b.length - 9) % 3 == 0

/-- Modelled from the spec: parse a chunk payload buffer; a truncated
or length-mismatched buffer fails with `MalformedPayload`. -/
def decodeChunk (b : List Nat) : Except DecodeError ChunkData :=
  if chunkLenOk b then
    let v := (b.length - 9) / 3
    let body := b.drop 9
    .ok { x := decInt32 (b.take 4)
        , z := decInt32 ((b.drop 4).take 4)
        , blocks := body.take v
        , metadata := (body.drop v).take v
        , light := body.drop (2 * v) }
  else .error .malformedPayload

/-- A decoded wire frame: either a parsed chunk payload or a
structured control message carried as its self-describing record
bytes. -/
inductive Frame
  | chunk (c : ChunkData)
  | control (t : MessageType) (payload : List Nat)
deriving DecidableEq, Repr

/-- Modelled from the spec: decode one wire frame.  The first byte is
the type tag (its index into the message catalogue); an index outside
the catalogue fails with `UnknownMessageType`; a `chunk_data` frame
parses its binary payload, every other catalogued tag carries a
self-describing key-value record which is kept as raw bytes. -/
def decodeFrame (b : List Nat) : Except DecodeError Frame :=
  match b with
  | [] => .error .malformedPayload
  | tb :: rest =>
    match allMessageTypes[tb]? with
    | none => .error .unknownMessageType
    | some t =>
      if t = MessageType.chunkData then
        match decodeChunk rest with
        | .ok c => .ok (.chunk c)
        | .error e => .error e
      else .ok (.control t rest)

/-- Modelled from the spec: encode a `chunk_data` message as its type
tag byte followed by the chunk payload. -/
def encodeChunkFrame (c : ChunkData) : List Nat := 15 :: encodeChunk c

/-- A frame is truncated or length-mismatched when it is empty (no
tag byte) or its tag announces a chunk payload whose buffer does not
split into the fixed header plus three equal per-voxel arrays. -/
def truncatedOrLengthMismatched (b : List Nat) : Prop :=
  b = [] ∨ ∃ tb rest, b = tb :: rest ∧
    allMessageTypes[tb]? = some MessageType.chunkData ∧ chunkLenOk rest = false

/-- A frame carries an unknown type tag when its first byte indexes
outside the message catalogue. -/
def unknownTypeTag (b : List Nat) : Prop :=
  ∃ tb rest, b = tb :: rest ∧ allMessageTypes[tb]? = none

/-! ## Connection session -/

/-- Modelled from the spec: the connection session states
(§4.4); `disconnected` is the sole terminal state. -/
inductive SessionState
  | unauthenticated
  | authenticated
  | worldJoined
  | disconnected
deriving DecidableEq, Repr

/-- A session state is terminal exactly when it is `disconnected`. -/
def SessionState.terminal : SessionState → Bool
  | .disconnected => true
  | _ => false

/-- The per-connection session record, reduced to the parts the
frame-handling layer observes. -/
structure Session where
  sid : String
  state : SessionState
deriving DecidableEq, Repr

/-- Outbound messages the frame-handling layer can emit. -/
inductive OutMsg
  | errorOut (code : Nat)
  | frameOut (f : Frame)
deriving DecidableEq, Repr

/-- Modelled from the spec: receive one raw frame on a session.
Decoding failures are recovered locally: the offending message is
discarded, an `error` message with the failure's numeric code is sent
back, and the session keeps its state.  A successfully decoded frame
is passed on to the state machine unchanged (dispatch beyond this
layer is outside the codec recovery model). -/
def handleFrame (s : Session) (b : List Nat) : Session × List OutMsg :=
  match decodeFrame b with
  | .error e => (s, [OutMsg.errorOut e.code])
  | .ok f => (s, [OutMsg.frameOut f])

/-- `PingMessage` of `protocol.ts`: the bare envelope (`id`,
`timestamp`). -/
structure PingMessage where
  id : String
  timestamp : Int
deriving DecidableEq, Repr

/-- `PongMessage` of `protocol.ts`: envelope `id` plus the single
`timestamp` property (the re-declared `timestamp` of the interface
coincides with the envelope's). -/
structure PongMessage where
  id : String
  timestamp : Int
deriving DecidableEq, Repr

/-- The `timestamp` a reader of the pong uses as the echoed original
(for RTT measurement). -/
def PongMessage.echoedTimestamp (p : PongMessage) : Int := p.timestamp

/-- The `timestamp` slot of the pong's envelope (`BaseMessage`). -/
def PongMessage.envelopeTimestamp (p : PongMessage) : Int := p.timestamp

/-- Modelled from the spec: PING is accepted in every non-terminal
state and answered with PONG echoing the original timestamp; in the
terminal state no answer is produced. -/
def handlePing (st : SessionState) (freshId : String) (p : PingMessage) :
    Option PongMessage :=
  if st.terminal then none
  else some { id := freshId, timestamp := p.timestamp }

/-- A concrete one-voxel chunk payload used to exercise the codec and
the well-formedness predicate on explicit inputs. -/
def sampleChunk : ChunkData :=
  { x := 3, z := -2, blocks := [7], metadata := [0], light := [17] }

/-- A concrete entity value used to exercise the entity data model on
an explicit input. -/
def sampleEntity : Entity :=
  { id := "e1", type := "mob", position := (0, 64, 0)
  , rotation := (0, 0, 0), velocity := (0, 0, 0)
  , health := 10, maxHealth := 10, metadata := [] }

/-! ## Codec lemmas -/

theorem le32_length (n : Nat) : (le32 n).length = 4 := by
  simp [le32]

theorem de32_le32 {n : Nat} (h : n < 4294967296) : de32 (le32 n) = n := by
  simp only [le32, de32]
  omega

theorem encInt32_length (x : Int) : (encInt32 x).length = 4 := by
  simp [encInt32, le32_length]

theorem decInt32_encInt32 (x : Int) (h1 : -2147483648 ≤ x)
    (h2 : x < 2147483648) : decInt32 (encInt32 x) = x := by
  have hnn : 0 ≤ x % 4294967296 := Int.emod_nonneg x (by norm_num)
  have hlt : x % 4294967296 < 4294967296 :=
    Int.emod_lt_of_pos x (by norm_num)
  have hmi : ((x % 4294967296).toNat : Int) = x % 4294967296 :=
    Int.toNat_of_nonneg hnn
  have hmn : (x % 4294967296).toNat < 4294967296 := by omega
  unfold encInt32 decInt32
  simp only [de32_le32 hmn]
  split <;> omega

theorem take_append_len {α : Type} (l₁ l₂ : List α) (n : Nat)
    (h : l₁.length = n) : (l₁ ++ l₂).take n = l₁ := by
  subst h
  induction l₁ with
  | nil => simp
  | cons a t ih => simp [ih]

theorem drop_append_len {α : Type} (l₁ l₂ : List α) (n : Nat)
    (h : l₁.length = n) : (l₁ ++ l₂).drop n = l₂ := by
  subst h
  induction l₁ with
  | nil => simp
  | cons a t ih => simp [ih]

theorem decodeChunk_encodeChunk (c : ChunkData) (h : c.wf) :
    decodeChunk (encodeChunk c) = .ok c := by
  obtain ⟨hm, hl, -, -, -, hx1, hx2, hz1, hz2⟩ := h
  have hA : (encInt32 c.x).length = 4 := encInt32_length c.x
  have hB : (encInt32 c.z).length = 4 := encInt32_length c.z
  have hb : encodeChunk c =
      (encInt32 c.x ++ (encInt32 c.z ++ [chunkFormatVersion])) ++
        (c.blocks ++ (c.metadata ++ c.light)) := by
    simp [encodeChunk, List.append_assoc]
  have hH : (encInt32 c.x ++ (encInt32 c.z ++ [chunkFormatVersion])).length = 9 := by
    simp [hA, hB]
  have hlen : (encodeChunk c).length = 9 + 3 * c.blocks.length := by
    rw [hb]
    simp only [List.length_append, hH, hm, hl]
    omega
  have hok : chunkLenOk (encodeChunk c) = true := by
    simp only [chunkLenOk, hlen, Bool.and_eq_true, decide_eq_true_eq,
      beq_iff_eq]
    omega
  have h1 : (encodeChunk c).take 4 = encInt32 c.x := by
    rw [hb, List.append_assoc]
    exact take_append_len _ _ 4 hA
  have h2 : ((encodeChunk c).drop 4).take 4 = encInt32 c.z := by
    rw [hb, List.append_assoc, drop_append_len _ _ 4 hA, List.append_assoc]
    exact take_append_len _ _ 4 hB
  have h3 : (encodeChunk c).drop 9 = c.blocks ++ (c.metadata ++ c.light) := by
    rw [hb]
    exact drop_append_len _ _ 9 hH
  have hv : ((encodeChunk c).length - 9) / 3 = c.blocks.length := by
    rw [hlen]; omega
  have h4 : (c.blocks ++ (c.metadata ++ c.light)).take c.blocks.length =
      c.blocks := take_append_len _ _ _ rfl
  have h5 : ((c.blocks ++ (c.metadata ++ c.light)).drop c.blocks.length).take
      c.blocks.length = c.metadata := by
    rw [drop_append_len _ _ _ rfl]
    exact take_append_len _ _ _ hm
  have h6 : (c.blocks ++ (c.metadata ++ c.light)).drop
      (2 * c.blocks.length) = c.light := by
    rw [← List.append_assoc]
    refine drop_append_len _ _ _ ?_
    simp [hm]
    omega
  unfold decodeChunk
  rw [hok]
  simp only [if_true, h3, hv, h1, h2, h4, h5, h6,
    decInt32_encInt32 c.x hx1 hx2, decInt32_encInt32 c.z hz1 hz2]

theorem decodeChunk_lenOk_of_ok {b : List Nat} {c : ChunkData}
    (h : decodeChunk b = .ok c) : chunkLenOk b = true := by
  by_contra hno
  unfold decodeChunk at h
  rw [Bool.not_eq_true] at hno
  rw [hno] at h
  simp at h

theorem decodeChunk_error_iff (b : List Nat) (e : DecodeError) :
    decodeChunk b = .error e ↔
      e = .malformedPayload ∧ chunkLenOk b = false := by
  unfold decodeChunk
  by_cases hok : chunkLenOk b = true
  · rw [hok]
    simp [hok]
  · rw [Bool.not_eq_true] at hok
    rw [hok]
    simp [hok, eq_comm]

theorem decodeFrame_malformed_iff (b : List Nat) :
    decodeFrame b = .error .malformedPayload ↔
      truncatedOrLengthMismatched b := by
  cases b with
  | nil => simp [decodeFrame, truncatedOrLengthMismatched]
  | cons tb rest =>
    simp only [decodeFrame]
    split
    · rename_i hnone
      simp only [truncatedOrLengthMismatched]
      constructor
      · intro hx; simp at hx
      · rintro (hnil | ⟨tb', rest', heq, htag, -⟩)
        · simp at hnil
        · injection heq with h1 h2
          subst h1
          rw [hnone] at htag
          simp at htag
    · rename_i t hsome
      split
      · rename_i ht
        subst ht
        split
        · rename_i c hd
          have hlo := decodeChunk_lenOk_of_ok hd
          simp only [truncatedOrLengthMismatched]
          constructor
          · intro hx; simp at hx
          · rintro (hnil | ⟨tb', rest', heq, htag, hfl⟩)
            · simp at hnil
            · injection heq with h1 h2
              subst h2
              rw [hlo] at hfl
              simp at hfl
        · rename_i e hd
          obtain ⟨he, hfl⟩ := (decodeChunk_error_iff rest e).mp hd
          subst he
          simp only [truncatedOrLengthMismatched]
          constructor
          · intro hx
            exact Or.inr ⟨tb, rest, rfl, hsome, hfl⟩
          · intro hx
            trivial
      · rename_i ht
        simp only [truncatedOrLengthMismatched]
        constructor
        · intro hx; simp at hx
        · rintro (hnil | ⟨tb', rest', heq, htag, -⟩)
          · simp at hnil
          · injection heq with h1 h2
            subst h1
            rw [hsome] at htag
            injection htag with h3
            exact absurd h3 ht

theorem decodeFrame_unknown_iff (b : List Nat) :
    decodeFrame b = .error .unknownMessageType ↔ unknownTypeTag b := by
  cases b with
  | nil =>
    simp only [decodeFrame, unknownTypeTag]
    constructor
    · intro hx; simp at hx
    · rintro ⟨tb', rest', heq, -⟩
      simp at heq
  | cons tb rest =>
    simp only [decodeFrame]
    split
    · rename_i hnone
      simp only [unknownTypeTag]
      constructor
      · intro hx
        exact ⟨tb, rest, rfl, hnone⟩
      · intro hx
        trivial
    · rename_i t hsome
      have hback : ¬ unknownTypeTag (tb :: rest) := by
        rintro ⟨tb', rest', heq, htag⟩
        injection heq with h1 h2
        subst h1
        rw [hsome] at htag
        simp at htag
      split
      · rename_i ht
        subst ht
        split
        · rename_i c hd
          constructor
          · intro hx; simp at hx
          · intro hx; exact absurd hx hback
        · rename_i e hd
          obtain ⟨he, -⟩ := (decodeChunk_error_iff rest e).mp hd
          subst he
          constructor
          · intro hx; simp at hx
          · intro hx; exact absurd hx hback
      · rename_i ht
        constructor
        · intro hx; simp at hx
        · intro hx; exact absurd hx hback

theorem handleFrame_of_error (s : Session) (b : List Nat) (e : DecodeError)
    (h : decodeFrame b = .error e) :
    handleFrame s b = (s, [OutMsg.errorOut e.code]) := by
  unfold handleFrame
  rw [h]

/-! ## Claims -/

/-- Claim C1, counterexample: no well-formed chunk payload can store
block id 4095 in its block-id array — the `Uint8Array` per-voxel unit
only holds bytes, so the claim that every id in `0..=4095` fits is
false at the explicit input 4095. -/
theorem chunk_block_unit_rejects_4095 :
    ¬ ∃ c : ChunkData, c.wf ∧ 4095 ∈ c.blocks := by
  rintro ⟨c, hwf, hmem⟩
  have h := hwf.2.2.1 4095 hmem
  omega

/-- Claim C1, amended: each element of the chunk's block-id array is a
`Uint8Array` byte and can hold exactly the block ids `0..=255`
(value 0 = empty included); the one-byte per-voxel unit is not wide
enough for the full `0..=4095` reserved block-id range. -/
theorem chunk_block_unit_byte_range :
    (∀ c : ChunkData, c.wf → ∀ v ∈ c.blocks, v ≤ 255) ∧
      (∀ id : Nat, id ≤ 255 → ∃ c : ChunkData, c.wf ∧ id ∈ c.blocks) := by
  constructor
  · intro c hwf v hv
    have h := hwf.2.2.1 v hv
    omega
  · intro id hid
    refine ⟨⟨0, 0, [id], [0], [0]⟩, ?_, by simp⟩
    refine ⟨rfl, rfl, ?_, ?_, ?_, by norm_num, by norm_num, by norm_num,
      by norm_num⟩
    · intro v hv
      simp only [List.mem_singleton] at hv
      omega
    · intro v hv
      simp only [List.mem_singleton] at hv
      omega
    · intro v hv
      simp only [List.mem_singleton] at hv
      omega

/-- Claim C1, witness: the amended theorem applied at the concrete
chunk `sampleChunk` and the concrete block id 7. -/
theorem chunk_block_unit_byte_range_witness :
    sampleChunk.wf ∧ (∀ v ∈ sampleChunk.blocks, v ≤ 255) ∧
      (∃ c : ChunkData, c.wf ∧ 7 ∈ c.blocks) :=
  ⟨by decide, chunk_block_unit_byte_range.1 sampleChunk (by decide),
    chunk_block_unit_byte_range.2 7 (by decide)⟩

/-- Claim C2, counterexample: `world_leave_request` is a catalogued
type tag of the `MessageType` enum, yet the `NetworkMessage` union of
`protocol.ts` declares no payload shape for it. -/
theorem variant_missing_for_world_leave :
    MessageType.worldLeaveRequest ∈ allMessageTypes ∧
      networkMessageVariantTags.count MessageType.worldLeaveRequest = 0 := by
  decide

/-- Claim C2, amended: every catalogued type tag has at most one
payload shape in the `NetworkMessage` union; the twelve tags of
`missingVariantTags` (world_leave_request, world_delete_request,
player_inventory_update, entity_spawn, entity_update, entity_despawn,
crafting_request, crafting_response, inventory_action, health_update,
experience_update, server_stats) have none, and every other tag has
exactly one, so the union is closed but not exhaustive over the
catalogue. -/
theorem network_message_union_partition :
    ∀ t : MessageType, t ∈ allMessageTypes ∧
      ((t ∈ missingVariantTags ∧ networkMessageVariantTags.count t = 0) ∨
        (t ∉ missingVariantTags ∧ networkMessageVariantTags.count t = 1)) := by
  intro t
  cases t <;> decide

/-- Claim C3, counterexample: the `NetworkMessage` envelope interface
of `types.ts` exposes no `id` property, so not every envelope type in
the shared code has a message id field. -/
theorem types_envelope_lacks_id : "id" ∉ typesNetworkMessageFields := by
  decide

/-- Claim C3, amended: the `BaseMessage` envelope of `protocol.ts`
exposes a type tag, a message id and a timestamp, but the
`NetworkMessage` envelope of `types.ts` exposes only a type tag, a
payload and a timestamp — no message id field. -/
theorem envelope_id_fields :
    ("type" ∈ baseMessageFields ∧ "id" ∈ baseMessageFields ∧
      "timestamp" ∈ baseMessageFields) ∧
    ("type" ∈ typesNetworkMessageFields ∧
      "payload" ∈ typesNetworkMessageFields ∧
      "timestamp" ∈ typesNetworkMessageFields ∧
      ¬ "id" ∈ typesNetworkMessageFields) := by
  decide

/-- Claim C4, counterexample: the `Entity` interface declares exactly
eight properties and none of the plausible authority-tick spellings is
among them — in particular `authorityTick` is absent. -/
theorem entity_lacks_authority_tick :
    "authorityTick" ∈ authorityTickFieldNames ∧
      "authorityTick" ∉ entityFields := by
  decide

/-- Claim C4, amended: an entity carries identifier, kind tag,
position/rotation/velocity transform, health with maxHealth and a
metadata record, and nothing else: the eight declared properties
determine the entity completely, and no authority tick counter field
is part of the entity data model. -/
theorem entity_fields_no_tick :
    entityFields.inter authorityTickFieldNames = [] ∧
      (∀ e₁ e₂ : Entity, e₁.id = e₂.id → e₁.type = e₂.type →
        e₁.position = e₂.position → e₁.rotation = e₂.rotation →
        e₁.velocity = e₂.velocity → e₁.health = e₂.health →
        e₁.maxHealth = e₂.maxHealth → e₁.metadata = e₂.metadata →
        e₁ = e₂) := by
  constructor
  · decide
  · intro e₁ e₂ h1 h2 h3 h4 h5 h6 h7 h8
    cases e₁
    cases e₂
    simp_all

/-- Claim C4, witness: the amended theorem applied at the concrete
entity `sampleEntity` against itself. -/
theorem entity_fields_no_tick_witness :
    sampleEntity = sampleEntity :=
  entity_fields_no_tick.2 sampleEntity sampleEntity rfl rfl rfl rfl rfl
    rfl rfl rfl

/-- Claim C5: for every valid chunk payload, decoding the bytes
produced by encoding it yields the original payload, both at the bare
chunk-payload level and at the framed message level. -/
theorem chunk_codec_round_trip :
    ∀ c : ChunkData, c.wf →
      decodeChunk (encodeChunk c) = .ok c ∧
        decodeFrame (encodeChunkFrame c) = .ok (.chunk c) := by
  intro c h
  have hc := decodeChunk_encodeChunk c h
  refine ⟨hc, ?_⟩
  simp only [encodeChunkFrame, decodeFrame]
  rw [show allMessageTypes[(15 : Nat)]? = some MessageType.chunkData from rfl]
  simp [hc]

/-- Claim C5, witness: the round trip at the concrete one-voxel chunk
`sampleChunk`. -/
theorem chunk_codec_round_trip_witness :
    sampleChunk.wf ∧
      decodeChunk (encodeChunk sampleChunk) = .ok sampleChunk ∧
        decodeFrame (encodeChunkFrame sampleChunk) =
          .ok (.chunk sampleChunk) := by
  have h : sampleChunk.wf := by decide
  exact ⟨h, (chunk_codec_round_trip sampleChunk h).1,
    (chunk_codec_round_trip sampleChunk h).2⟩

/-- Claim C6: decode fails with `MalformedPayload` exactly on a
truncated or length-mismatched buffer and with `UnknownMessageType`
exactly on an unknown type tag; on either failure the handler keeps
the session as it was (not closed), discards the offending message
and sends back a single `error` message carrying the failure's
numeric code. -/
theorem decode_failure_taxonomy_and_recovery :
    (∀ b, decodeFrame b = .error .malformedPayload ↔
      truncatedOrLengthMismatched b) ∧
    (∀ b, decodeFrame b = .error .unknownMessageType ↔ unknownTypeTag b) ∧
    (∀ (s : Session) (b : List Nat) (e : DecodeError),
      decodeFrame b = .error e →
        handleFrame s b = (s, [OutMsg.errorOut e.code])) :=
  ⟨decodeFrame_malformed_iff, decodeFrame_unknown_iff,
    fun s b e h => handleFrame_of_error s b e h⟩

/-- Claim C6, witness: the recovery clause applied at the concrete
unknown-tag frame `[200]` on a concrete authenticated session. -/
theorem decode_failure_taxonomy_and_recovery_witness :
    decodeFrame [200] = .error .unknownMessageType ∧
      handleFrame ⟨"s1", .authenticated⟩ [200] =
        (⟨"s1", .authenticated⟩, [OutMsg.errorOut 2]) := by
  have hd : decodeFrame [200] = .error .unknownMessageType := by rfl
  exact ⟨hd, decode_failure_taxonomy_and_recovery.2.2
    ⟨"s1", .authenticated⟩ [200] .unknownMessageType hd⟩

/-- Claim C7: in every non-terminal session state, a received PING is
answered with a PONG whose timestamp equals the original PING's
timestamp. -/
theorem ping_answered_with_pong_echo :
    ∀ (st : SessionState) (fid : String) (p : PingMessage),
      st.terminal = false →
        ∃ q : PongMessage, handlePing st fid p = some q ∧
          q.timestamp = p.timestamp := by
  intro st fid p h
  refine ⟨⟨fid, p.timestamp⟩, ?_, rfl⟩
  unfold handlePing
  rw [h]
  simp

/-- Claim C7, witness: the theorem applied in the concrete
`worldJoined` state to a PING with timestamp 42. -/
theorem ping_answered_with_pong_echo_witness :
    SessionState.terminal .worldJoined = false ∧
      ∃ q : PongMessage,
        handlePing .worldJoined "m2" ⟨"p9", 42⟩ = some q ∧
          q.timestamp = (42 : Int) :=
  ⟨rfl, ping_answered_with_pong_echo .worldJoined "m2" ⟨"p9", 42⟩ rfl⟩

/-- Claim C8: a chat message's `messageType` is well-formed exactly
when it is one of the three values `chat`, `system`, `command`, and
the chat type of `protocol.ts` and the chat type of `types.ts` declare
the same closed set. -/
theorem chat_message_type_closed :
    protocolChatMessageTypes = typesChatMessageTypes ∧
      ∀ s : String, chatMessageTypeWF s ↔
        (s = "chat" ∨ s = "system" ∨ s = "command") := by
  refine ⟨rfl, ?_⟩
  intro s
  simp [chatMessageTypeWF, protocolChatMessageTypes]

/-- Claim C9: the wire-level `world_create_request` leaves `gameMode`
an unconstrained string — a well-formed request whose `gameMode` lies
outside the closed `GameMode` set exists — while `Player.gameMode` and
`WorldSettings.gameMode`, typed by the `GameMode` enum, always map
into exactly that closed set. -/
theorem world_create_gamemode_unconstrained :
    (∃ m : WorldCreateRequestMessage, m.wf ∧
      m.gameMode ∉ gameModeWireValues) ∧
    (∀ g : GameMode, g.wire ∈ gameModeWireValues) ∧
    (∀ p : Player, p.gameMode.wire ∈ gameModeWireValues) ∧
    (∀ w : WorldSettings, w.gameMode.wire ∈ gameModeWireValues) := by
  refine ⟨⟨⟨.worldCreateRequest, "m1", 0, "w", 1, "hardcore", .null⟩,
    rfl, by decide⟩, ?_, ?_, ?_⟩
  · intro g
    cases g <;> decide
  · intro p
    cases h : p.gameMode <;> decide
  · intro w
    cases h : w.gameMode <;> decide

/-- Claim C10: the full `PongMessage` interface carries exactly one
`timestamp` property (extension merges the re-declared `timestamp`
with the envelope's), so the echoed timestamp and the envelope
timestamp of any pong are the same value. -/
theorem pong_single_timestamp :
    pongMessageFields.count "timestamp" = 1 ∧
      "id" ∈ pongMessageFields ∧ "type" ∈ pongMessageFields ∧
      ∀ p : PongMessage, p.echoedTimestamp = p.envelopeTimestamp := by
  refine ⟨by decide, by decide, by decide, fun p => rfl⟩

end StrixCraft
